import Mathlib

/-!
Verification of the ticket lifecycle and notification engine.

The TypeScript source keeps its state in module-level arrays
(mockTickets, mockNotifications, mockAdminNotifications, mockLogs) that the
zustand store mirrors after every mutation; the embedding models the two as a
single list per collection.  ISO-8601 timestamp strings are compared in the
source only through Date.getTime, so timestamps are embedded as integer
milliseconds.  Identifier strings generated from Date.now are embedded as the
same string templates applied to the integer instant.
-/

namespace Sai

/-- Roles carried by users, from the Role enum in types. -/
inductive Role where
  | pre
  | admin
  | datacr
  | bdm
  | asm
deriving Repr, DecidableEq

/-- Ticket statuses, from the TicketStatus enum in types. -/
inductive TicketStatus where
  | inProgress
  | completed
  | escalated
  | closed
deriving Repr, DecidableEq

/-- The string value of each TicketStatus enum member, used in message templates. -/
def statusText : TicketStatus → String
  | .inProgress => "In Progress"
  | .completed => "Completed"
  | .escalated => "Escalated"
  | .closed => "Closed"

/-- Teams, from the Team enum in types. -/
inductive Team where
  | onboarding
  | retargeting
  | retention
deriving Repr, DecidableEq

/-- A user record, from the User interface in types. -/
structure User where
  id : String
  name : String
  email : String
  role : Role
  team : Option Team
  managerId : Option String
deriving Repr, DecidableEq

/-- An automated message tied to an error type, from the AutomatedMessage interface. -/
structure AutomatedMessage where
  id : String
  errorTypeId : String
  message : String
deriving Repr, DecidableEq

/-- Attachment metadata stored on a ticket. -/
structure Attachment where
  name : String
  type : String
  size : Nat
deriving Repr, DecidableEq

/-- A ticket record, from the Ticket interface in types. -/
structure Ticket where
  id : String
  uid : String
  preId : String
  errorTypeId : String
  description : String
  comment : Option String
  status : TicketStatus
  createdAt : Int
  updatedAt : Int
  rpName : Option String
  team : Team
  subject : Option String
  attachment : Option Attachment
deriving Repr, DecidableEq

/-- A notification addressed to one representative, from the SystemNotification interface. -/
structure SystemNotification where
  id : String
  ticketId : String
  preId : String
  uid : String
  message : String
  timestamp : Int
  isRead : Bool
deriving Repr, DecidableEq

/-- A notification addressed to the admin audience, from the AdminNotification interface. -/
structure AdminNotification where
  id : String
  ticketId : String
  message : String
  timestamp : Int
  isRead : Bool
deriving Repr, DecidableEq

/-- An audit log entry, from the AuditLog interface. -/
structure AuditLog where
  id : String
  ticketId : String
  userId : String
  action : String
  timestamp : Int
  details : String
deriving Repr, DecidableEq

/-- The session slice consulted by the ticket store: the logged-in user (or none)
and the session-selected team (or none).  The source keeps session.team as a
nullable string holding Team enum values. -/
structure SessionState where
  user : Option User
  team : Option Team
deriving Repr, DecidableEq

/-- The mutable collections touched by addTicket and updateTicket: the ticket
list, both notification lists and the audit log, each kept newest-first by
unshift in the source. -/
structure StoreState where
  tickets : List Ticket
  notifications : List SystemNotification
  adminNotifications : List AdminNotification
  logs : List AuditLog
deriving Repr, DecidableEq

/-- The ticket creation payload: Omit of Ticket over id, createdAt, updatedAt,
preId, status and team. -/
structure TicketDraft where
  uid : String
  errorTypeId : String
  description : String
  comment : Option String
  rpName : Option String
  subject : Option String
  attachment : Option Attachment
deriving Repr, DecidableEq

/-- The two failure kinds addTicket can throw: the expired-session error and the
missing-team error (thrown by the combined check on preId and team). -/
inductive CreateError where
  | sessionInvalid
  | teamUnresolved
deriving Repr, DecidableEq

/-- Splitting a character list at every dash, the recursive core of ticketNum. -/
def splitDash : List Char → List (List Char)
  | [] => [[]]
  | c :: rest =>
    if c = Char.ofNat 45 then [] :: splitDash rest
    else
      match splitDash rest with
      | [] => [[c]]
      | h :: t => (c :: h) :: t

/-- The second dash-separated component of an id string, as computed by the
template expression splitting the ticket id on a dash and taking index 1; an
absent component renders as the text undefined, as a JS template does. -/
def ticketNum (id : String) : String :=
  ((splitDash id.data).map (fun l => String.mk l)).getD 1 "undefined"

/-- Team resolution in addTicket: a PRE takes the session-selected team, any
other role takes the team fixed on the user profile. -/
def resolveTeam (user : User) (session : SessionState) : Option Team :=
  if user.role = Role.pre then session.team else user.team

/-- Initial status computation of addTicket: InProgress unless an
AutomatedMessage matches the draft error type, in which case Closed on a first
submission and Escalated when an existing ticket already carries the same
(uid, errorType) pair. -/
def initialStatus (messages : List AutomatedMessage) (tickets : List Ticket)
    (draft : TicketDraft) : TicketStatus :=
  match messages.find? (fun m => decide (m.errorTypeId = draft.errorTypeId)) with
  | none => TicketStatus.inProgress
  | some _ =>
    match tickets.find? (fun t => decide (t.uid = draft.uid ∧ t.errorTypeId = draft.errorTypeId)) with
    | some _ => TicketStatus.escalated
    | none => TicketStatus.closed

/-- The ticket lifecycle Create operation, embedding addTicket from the store:
it resolves the acting user and team from the session, computes the initial
status, prepends the new ticket, the admin notification, any system
notification and the CREATE audit entry, and returns the new ticket with the
new state.  The parameter now stands for the millisecond instant Date.now
delivers throughout the call. -/
def addTicket (session : SessionState) (messages : List AutomatedMessage)
    (s : StoreState) (draft : TicketDraft) (now : Int) :
    Except CreateError (Ticket × StoreState) :=
  match session.user with
  | none => Except.error CreateError.sessionInvalid
  | some user =>
    let preId := user.id
    let team? := resolveTeam user session
    if preId = "" then Except.error CreateError.teamUnresolved
    else
      match team? with
      | none => Except.error CreateError.teamUnresolved
      | some team =>
        let automatedMessageToSend :=
          messages.find? (fun m => decide (m.errorTypeId = draft.errorTypeId))
        let status := initialStatus messages s.tickets draft
        let newTicket : Ticket :=
          { id := "ticket-" ++ toString now
            uid := draft.uid
            preId := preId
            errorTypeId := draft.errorTypeId
            description := draft.description
            comment := draft.comment
            status := status
            createdAt := now
            updatedAt := now
            rpName := draft.rpName
            team := team
            subject := draft.subject
            attachment := draft.attachment }
        let newAdminNotification : AdminNotification :=
          { id := "admin-notif-" ++ toString now
            ticketId := newTicket.id
            message :=
              if status = TicketStatus.escalated then
                "Ticket for UID " ++ newTicket.uid ++ " was re-submitted and has been escalated."
              else
                "New ticket from UID " ++ newTicket.uid ++ " was created."
            timestamp := now
            isRead := false }
        let notifications1 :=
          if status = TicketStatus.escalated then
            { id := "notif-" ++ toString now
              ticketId := newTicket.id
              preId := preId
              uid := newTicket.uid
              message := "Your ticket submission for UID " ++ newTicket.uid ++
                " (Ticket #" ++ ticketNum newTicket.id ++ ") was escalated."
              timestamp := now
              isRead := false } :: s.notifications
          else s.notifications
        let notifications2 :=
          match automatedMessageToSend with
          | some am =>
            if status = TicketStatus.closed then
              { id := "notif-" ++ toString now
                ticketId := newTicket.id
                preId := preId
                uid := newTicket.uid
                message := "Ticket #" ++ ticketNum newTicket.id ++ " for UID " ++
                  newTicket.uid ++ ": " ++ am.message
                timestamp := now
                isRead := false } :: notifications1
            else notifications1
          | none => notifications1
        let newLog : AuditLog :=
          { id := "log-" ++ toString now
            ticketId := newTicket.id
            userId := preId
            action := "CREATE"
            timestamp := now
            details := "Ticket created for UID " ++ newTicket.uid ++ " with status " ++
              statusText status ++ "." }
        Except.ok (newTicket,
          { tickets := newTicket :: s.tickets
            notifications := notifications2
            adminNotifications := newAdminNotification :: s.adminNotifications
            logs := newLog :: s.logs })

/-- The ticket update payload: Partial of Ticket together with a mandatory id.
Every field of the source Ticket type may appear in the patch; a patched
updatedAt is irrelevant because updateTicket overwrites it with the update
instant before merging. -/
structure TicketPatch where
  id : String
  uid : Option String := none
  preId : Option String := none
  errorTypeId : Option String := none
  description : Option String := none
  comment : Option String := none
  status : Option TicketStatus := none
  createdAt : Option Int := none
  updatedAt : Option Int := none
  rpName : Option String := none
  team : Option Team := none
  subject : Option String := none
  attachment : Option Attachment := none
deriving Repr, DecidableEq

/-- The spread merge performed by updateTicket: each field present in the patch
overwrites the stored value, absent fields are untouched, and updatedAt is
always set to the update instant. -/
def applyPatch (t : Ticket) (p : TicketPatch) (now : Int) : Ticket :=
  { id := p.id
    uid := p.uid.getD t.uid
    preId := p.preId.getD t.preId
    errorTypeId := p.errorTypeId.getD t.errorTypeId
    description := p.description.getD t.description
    comment := match p.comment with | some c => some c | none => t.comment
    status := p.status.getD t.status
    createdAt := p.createdAt.getD t.createdAt
    updatedAt := now
    rpName := match p.rpName with | some r => some r | none => t.rpName
    team := p.team.getD t.team
    subject := match p.subject with | some x => some x | none => t.subject
    attachment := match p.attachment with | some a => some a | none => t.attachment }

/-- Replacement of the first element satisfying a predicate, embedding the
findIndex-then-assign step of updateTicket. -/
def replaceFirst (q : α → Bool) (x : α) : List α → List α
  | [] => []
  | a :: rest => if q a then x :: rest else a :: replaceFirst q x rest

/-- The JS falsy-or used on the reviewer comment: an absent or empty comment
falls back to the given default text. -/
def jsOrElse (c : Option String) (d : String) : String :=
  match c with
  | some v => if v = "" then d else v
  | none => d

/-- The ticket update operation, embedding updateTicket from the store: it
returns the state unchanged when no acting user id resolves; otherwise it
patches the first ticket matching the id, emits the escalation or resolution
notifications when their status conditions hold, and appends an UPDATE audit
entry — also when no ticket matched the id. -/
def updateTicket (session : SessionState) (s : StoreState) (p : TicketPatch)
    (now : Int) : StoreState :=
  match session.user with
  | none => s
  | some user =>
    if user.id = "" then s
    else
      let adminId := user.id
      match s.tickets.find? (fun t => decide (t.id = p.id)) with
      | none =>
        let details :=
          match p.status with
          | some st => "Status changed to " ++ statusText st ++ " for ticket " ++ p.id ++ "."
          | none => "Ticket details updated for " ++ p.id ++ "."
        { s with logs :=
            { id := "log-" ++ toString now
              ticketId := p.id
              userId := adminId
              action := "UPDATE"
              timestamp := now
              details := details } :: s.logs }
      | some originalTicket =>
        let originalStatus := originalTicket.status
        let updatedTicket := applyPatch originalTicket p now
        let tickets1 := replaceFirst (fun t => decide (t.id = p.id)) updatedTicket s.tickets
        let manualEscalation :=
          p.status = some TicketStatus.escalated ∧ originalStatus ≠ TicketStatus.escalated
        let adminNotifications1 :=
          if manualEscalation then
            { id := "admin-notif-" ++ toString now
              ticketId := p.id
              message := "Ticket for UID " ++ originalTicket.uid ++ " has been escalated."
              timestamp := now
              isRead := false } :: s.adminNotifications
          else s.adminNotifications
        let notifications1 :=
          if manualEscalation then
            { id := "notif-escalated-" ++ toString now
              ticketId := updatedTicket.id
              preId := updatedTicket.preId
              uid := updatedTicket.uid
              message := "Your ticket #" ++ ticketNum updatedTicket.id ++ " for UID " ++
                updatedTicket.uid ++ " has been manually escalated."
              timestamp := now
              isRead := false } :: s.notifications
          else s.notifications
        let notifications2 :=
          if (updatedTicket.status = TicketStatus.completed ∨
                updatedTicket.status = TicketStatus.closed) ∧
              originalStatus ≠ updatedTicket.status then
            { id := "notif-" ++ toString now
              ticketId := updatedTicket.id
              preId := updatedTicket.preId
              uid := updatedTicket.uid
              message := "Your ticket #" ++ ticketNum updatedTicket.id ++ " for UID " ++
                updatedTicket.uid ++ " has been resolved. DataCR Comment: \"" ++
                jsOrElse updatedTicket.comment "No comment provided." ++ "\""
              timestamp := now
              isRead := false } :: notifications1
          else notifications1
        let details :=
          match p.status with
          | some st =>
            if st ≠ originalStatus then
              "Status changed to " ++ statusText st ++ " for ticket " ++ p.id ++ "."
            else "Ticket details updated for " ++ p.id ++ "."
          | none => "Ticket details updated for " ++ p.id ++ "."
        { tickets := tickets1
          notifications := notifications2
          adminNotifications := adminNotifications1
          logs :=
            { id := "log-" ++ toString now
              ticketId := p.id
              userId := adminId
              action := "UPDATE"
              timestamp := now
              details := details } :: s.logs }

/-- Marking an admin notification read: the first notification matching the id
gets isRead set to true; an unmatched id changes nothing. -/
def markAdminNotificationAsRead : List AdminNotification → String → List AdminNotification
  | [], _ => []
  | n :: rest, notificationId =>
    if n.id = notificationId then { n with isRead := true } :: rest
    else n :: markAdminNotificationAsRead rest notificationId

/-- Marking a system notification read: the first notification matching the id
gets isRead set to true; an unmatched id changes nothing. -/
def markSystemNotificationAsRead : List SystemNotification → String → List SystemNotification
  | [], _ => []
  | n :: rest, notificationId =>
    if n.id = notificationId then { n with isRead := true } :: rest
    else n :: markSystemNotificationAsRead rest notificationId

/-- The KPI record computed by calculateKPIs. -/
structure KPI where
  activeTickets : Nat
  closedTickets : Nat
  avgTimeToSolve : String
deriving Repr, DecidableEq

/-- Rendering of a rational day count with one decimal digit, embedding the
toFixed call of calculateKPIs: the value is scaled by ten, rounded half away
from the lower side, and printed with one digit after the point. -/
def formatDays (q : ℚ) : String :=
  let n : Int := Int.floor (q * 10 + 1 / 2)
  let sign := if n < 0 then "-" else ""
  sign ++ toString (n.natAbs / 10) ++ "." ++ toString (n.natAbs % 10)

/-- The truth of a ticket being active for KPI purposes: status InProgress or
Escalated. -/
def isActiveTicket (t : Ticket) : Bool :=
  decide (t.status = TicketStatus.inProgress ∨ t.status = TicketStatus.escalated)

/-- The truth of a ticket being closed or completed for KPI purposes. -/
def isClosedOrCompleted (t : Ticket) : Bool :=
  decide (t.status = TicketStatus.completed ∨ t.status = TicketStatus.closed)

/-- The KPI aggregation, embedding calculateKPIs from the store: active and
closed counts of the given ticket subset, and the average of updatedAt minus
createdAt over the closed subset converted to days, or the N/A sentinel when
no ticket is closed. -/
def calculateKPIs (filteredTickets : List Ticket) : KPI :=
  let activeTickets := (filteredTickets.filter isActiveTicket).length
  let closedOrCompletedTickets := filteredTickets.filter isClosedOrCompleted
  let closedTickets := closedOrCompletedTickets.length
  let avgTimeToSolve :=
    if closedTickets > 0 then
      let totalSolveTime : Int :=
        closedOrCompletedTickets.foldl (fun acc t => acc + (t.updatedAt - t.createdAt)) 0
      let avgMilliseconds : ℚ := (totalSolveTime : ℚ) / (closedTickets : ℚ)
      let avgDays : ℚ := avgMilliseconds / (1000 * 60 * 60 * 24)
      formatDays avgDays ++ " days"
    else "N/A"
  { activeTickets := activeTickets
    closedTickets := closedTickets
    avgTimeToSolve := avgTimeToSolve }

/-- The state of the subordinate search loop: the queue entries not yet
processed, the visited id set, and the collected subordinate ids. -/
structure BfsState where
  pending : List String
  visited : List String
  subs : List String
deriving Repr, DecidableEq

/-- One iteration body of the inner loop of getSubordinateIds: a direct report
not yet visited is marked visited, collected, and enqueued. -/
def enqueueChild (st : BfsState) (u : User) : BfsState :=
  if u.id ∈ st.visited then st
  else
    { pending := st.pending ++ [u.id]
      visited := u.id :: st.visited
      subs := st.subs ++ [u.id] }

/-- One iteration of the outer while loop of getSubordinateIds: the queue head
is processed by enqueuing each of its direct reports. -/
def stepBfs (allUsers : List User) (s : BfsState) : BfsState :=
  match s.pending with
  | [] => s
  | h :: rest =>
    (allUsers.filter (fun u => decide (u.managerId = some h))).foldl enqueueChild
      { pending := rest, visited := s.visited, subs := s.subs }

/-- The while loop of getSubordinateIds run for at most the given number of
iterations; the loop in the source runs until the queue is exhausted, which
the termination theorems below show happens within the fuel used. -/
def runBfs (allUsers : List User) : Nat → BfsState → BfsState
  | 0, s => s
  | Nat.succ n, s => if s.pending = [] then s else runBfs allUsers n (stepBfs allUsers s)

/-- The starting loop state of getSubordinateIds: the queue and the visited set
hold the manager id, so the manager never lists itself. -/
def initBfs (managerId : String) : BfsState :=
  { pending := [managerId], visited := [managerId], subs := [] }

/-- The organisational hierarchy resolver, embedding getSubordinateIds: a
breadth-first walk from the manager id along manager references, collecting
every user id visited, the manager itself excluded. -/
def getSubordinateIds (managerId : String) (allUsers : List User) : List String :=
  (runBfs allUsers (allUsers.length + 1) (initBfs managerId)).subs

/-- Transitive reachability along manager references: the ids of direct
reports of m, and of direct reports of already reachable ids. -/
inductive Subordinate (us : List User) (m : String) : String → Prop
  | base {u : User} (hu : u ∈ us) (hm : u.managerId = some m) : Subordinate us m u.id
  | step {u : User} {x : String} (hx : Subordinate us m x) (hu : u ∈ us)
      (hm : u.managerId = some x) : Subordinate us m u.id

/-! Theorems -/

lemma foldl_add_diff (l : List Ticket) (a : Int) :
    l.foldl (fun acc t => acc + (t.updatedAt - t.createdAt)) a =
      a + (l.map (fun t => t.updatedAt - t.createdAt)).sum := by
  induction l generalizing a with
  | nil => simp
  | cons t rest ih => simp [List.foldl_cons, ih, add_assoc]

/-- C6: calculateKPIs counts the InProgress-or-Escalated tickets as active and
the Completed-or-Closed tickets as closed, reports the N/A sentinel when no
ticket is closed and otherwise the mean of updatedAt minus createdAt over the
closed-or-completed tickets converted to days and rendered with one decimal
digit; on the empty list it yields zero, zero and the sentinel. -/
theorem calculateKPIs_spec (ts : List Ticket) :
    (calculateKPIs ts).activeTickets =
      ts.countP (fun t =>
        decide (t.status = TicketStatus.inProgress ∨ t.status = TicketStatus.escalated)) ∧
    (calculateKPIs ts).closedTickets =
      ts.countP (fun t =>
        decide (t.status = TicketStatus.completed ∨ t.status = TicketStatus.closed)) ∧
    (calculateKPIs ts).avgTimeToSolve =
      (if (calculateKPIs ts).closedTickets = 0 then "N/A"
       else
        formatDays
          (((((ts.filter isClosedOrCompleted).map
                (fun t => t.updatedAt - t.createdAt)).sum : Int) /
              ((calculateKPIs ts).closedTickets : ℚ)) / 86400000) ++ " days") ∧
    calculateKPIs [] = { activeTickets := 0, closedTickets := 0, avgTimeToSolve := "N/A" } := by
  refine ⟨?_, ?_, ?_, rfl⟩
  · simp only [calculateKPIs]
    rw [List.countP_eq_length_filter]
    rfl
  · simp only [calculateKPIs]
    rw [List.countP_eq_length_filter]
    rfl
  · rcases Nat.eq_zero_or_pos (ts.filter isClosedOrCompleted).length with hz | hp
    · simp [calculateKPIs, hz]
    · have hne : (ts.filter isClosedOrCompleted).length ≠ 0 := Nat.pos_iff_ne_zero.mp hp
      simp only [calculateKPIs]
      rw [if_pos hp, if_neg hne, foldl_add_diff]
      norm_num

lemma markSys_idem (sys : List SystemNotification) (nid : String) :
    markSystemNotificationAsRead (markSystemNotificationAsRead sys nid) nid =
      markSystemNotificationAsRead sys nid := by
  induction sys with
  | nil => rfl
  | cons n rest ih =>
    by_cases h : n.id = nid
    · simp [markSystemNotificationAsRead, h]
    · simp [markSystemNotificationAsRead, h, ih]

lemma markAdm_idem (adm : List AdminNotification) (nid : String) :
    markAdminNotificationAsRead (markAdminNotificationAsRead adm nid) nid =
      markAdminNotificationAsRead adm nid := by
  induction adm with
  | nil => rfl
  | cons n rest ih =>
    by_cases h : n.id = nid
    · simp [markAdminNotificationAsRead, h]
    · simp [markAdminNotificationAsRead, h, ih]

lemma markSys_unknown (sys : List SystemNotification) (nid : String)
    (h : ∀ n ∈ sys, n.id ≠ nid) : markSystemNotificationAsRead sys nid = sys := by
  induction sys with
  | nil => rfl
  | cons n rest ih =>
    have hn : n.id ≠ nid := h n (List.mem_cons_self n rest)
    simp only [markSystemNotificationAsRead, if_neg hn]
    rw [ih (fun x hx => h x (List.mem_cons_of_mem n hx))]

lemma markAdm_unknown (adm : List AdminNotification) (nid : String)
    (h : ∀ n ∈ adm, n.id ≠ nid) : markAdminNotificationAsRead adm nid = adm := by
  induction adm with
  | nil => rfl
  | cons n rest ih =>
    have hn : n.id ≠ nid := h n (List.mem_cons_self n rest)
    simp only [markAdminNotificationAsRead, if_neg hn]
    rw [ih (fun x hx => h x (List.mem_cons_of_mem n hx))]

lemma markSys_count (sys : List SystemNotification) (nid : String)
    (hunread : ∀ n ∈ sys, n.isRead = false) (hmem : ∃ n ∈ sys, n.id = nid) :
    (markSystemNotificationAsRead sys nid).countP (fun n => n.isRead) = 1 := by
  induction sys with
  | nil => simp at hmem
  | cons n rest ih =>
    by_cases h : n.id = nid
    · simp only [markSystemNotificationAsRead, if_pos h]
      rw [List.countP_cons]
      have : rest.countP (fun n => n.isRead) = 0 :=
        List.countP_eq_zero.mpr (fun a ha => by
          simp [hunread a (List.mem_cons_of_mem n ha)])
      simp [this]
    · simp only [markSystemNotificationAsRead, if_neg h]
      rw [List.countP_cons]
      have hrest : ∃ x ∈ rest, x.id = nid := by
        rcases hmem with ⟨x, hx, hxid⟩
        rcases List.mem_cons.mp hx with rfl | hx2
        · exact absurd hxid h
        · exact ⟨x, hx2, hxid⟩
      have := ih (fun x hx => hunread x (List.mem_cons_of_mem n hx)) hrest
      simp [this, hunread n (List.mem_cons_self n rest)]

lemma markAdm_count (adm : List AdminNotification) (nid : String)
    (hunread : ∀ n ∈ adm, n.isRead = false) (hmem : ∃ n ∈ adm, n.id = nid) :
    (markAdminNotificationAsRead adm nid).countP (fun n => n.isRead) = 1 := by
  induction adm with
  | nil => simp at hmem
  | cons n rest ih =>
    by_cases h : n.id = nid
    · simp only [markAdminNotificationAsRead, if_pos h]
      rw [List.countP_cons]
      have : rest.countP (fun n => n.isRead) = 0 :=
        List.countP_eq_zero.mpr (fun a ha => by
          simp [hunread a (List.mem_cons_of_mem n ha)])
      simp [this]
    · simp only [markAdminNotificationAsRead, if_neg h]
      rw [List.countP_cons]
      have hrest : ∃ x ∈ rest, x.id = nid := by
        rcases hmem with ⟨x, hx, hxid⟩
        rcases List.mem_cons.mp hx with rfl | hx2
        · exact absurd hxid h
        · exact ⟨x, hx2, hxid⟩
      have := ih (fun x hx => hunread x (List.mem_cons_of_mem n hx)) hrest
      simp [this, hunread n (List.mem_cons_self n rest)]

/-- C9: both mark-as-read operations are idempotent and tolerant: a second call
with the same id is a no-op, an id matching no notification changes nothing,
and on an all-unread collection holding the id two calls leave exactly one
record with isRead true. -/
theorem markRead_idempotent_tolerant (sys : List SystemNotification)
    (adm : List AdminNotification) (nid : String) :
    markSystemNotificationAsRead (markSystemNotificationAsRead sys nid) nid =
      markSystemNotificationAsRead sys nid ∧
    markAdminNotificationAsRead (markAdminNotificationAsRead adm nid) nid =
      markAdminNotificationAsRead adm nid ∧
    ((∀ n ∈ sys, n.id ≠ nid) → markSystemNotificationAsRead sys nid = sys) ∧
    ((∀ n ∈ adm, n.id ≠ nid) → markAdminNotificationAsRead adm nid = adm) ∧
    ((∀ n ∈ sys, n.isRead = false) → (∃ n ∈ sys, n.id = nid) →
      (markSystemNotificationAsRead (markSystemNotificationAsRead sys nid) nid).countP
        (fun n => n.isRead) = 1) ∧
    ((∀ n ∈ adm, n.isRead = false) → (∃ n ∈ adm, n.id = nid) →
      (markAdminNotificationAsRead (markAdminNotificationAsRead adm nid) nid).countP
        (fun n => n.isRead) = 1) := by
  refine ⟨markSys_idem sys nid, markAdm_idem adm nid, markSys_unknown sys nid,
    markAdm_unknown adm nid, ?_, ?_⟩
  · intro hunread hmem
    rw [markSys_idem]
    exact markSys_count sys nid hunread hmem
  · intro hunread hmem
    rw [markAdm_idem]
    exact markAdm_count adm nid hunread hmem

lemma initialStatus_inProgress {messages : List AutomatedMessage} {tickets : List Ticket}
    {draft : TicketDraft} (h : ∀ m ∈ messages, m.errorTypeId ≠ draft.errorTypeId) :
    initialStatus messages tickets draft = TicketStatus.inProgress := by
  have hnone : messages.find? (fun m => decide (m.errorTypeId = draft.errorTypeId)) = none :=
    List.find?_eq_none.mpr (fun m hm => by simp [h m hm])
  simp [initialStatus, hnone]

lemma initialStatus_closed {messages : List AutomatedMessage} {tickets : List Ticket}
    {draft : TicketDraft} (h1 : ∃ m ∈ messages, m.errorTypeId = draft.errorTypeId)
    (h2 : ∀ tk ∈ tickets, ¬(tk.uid = draft.uid ∧ tk.errorTypeId = draft.errorTypeId)) :
    initialStatus messages tickets draft = TicketStatus.closed := by
  have hsome : (messages.find? (fun m => decide (m.errorTypeId = draft.errorTypeId))).isSome := by
    rw [List.find?_isSome]
    simpa using h1
  obtain ⟨m, hm⟩ := Option.isSome_iff_exists.mp hsome
  have hnone : tickets.find?
      (fun t => decide (t.uid = draft.uid ∧ t.errorTypeId = draft.errorTypeId)) = none :=
    List.find?_eq_none.mpr (fun t ht => by simpa using h2 t ht)
  unfold initialStatus
  rw [hm, hnone]

lemma initialStatus_escalated {messages : List AutomatedMessage} {tickets : List Ticket}
    {draft : TicketDraft} (h1 : ∃ m ∈ messages, m.errorTypeId = draft.errorTypeId)
    (h2 : ∃ tk ∈ tickets, tk.uid = draft.uid ∧ tk.errorTypeId = draft.errorTypeId) :
    initialStatus messages tickets draft = TicketStatus.escalated := by
  have hsome : (messages.find? (fun m => decide (m.errorTypeId = draft.errorTypeId))).isSome := by
    rw [List.find?_isSome]
    simpa using h1
  obtain ⟨m, hm⟩ := Option.isSome_iff_exists.mp hsome
  have hsome2 : (tickets.find?
      (fun t => decide (t.uid = draft.uid ∧ t.errorTypeId = draft.errorTypeId))).isSome := by
    rw [List.find?_isSome]
    simpa using h2
  obtain ⟨tk, htk⟩ := Option.isSome_iff_exists.mp hsome2
  unfold initialStatus
  rw [hm, htk]

lemma addTicket_ok_parts {session : SessionState} {messages : List AutomatedMessage}
    {s : StoreState} {draft : TicketDraft} {now : Int} {t : Ticket} {s2 : StoreState}
    (hok : addTicket session messages s draft now = Except.ok (t, s2)) :
    ∃ user, session.user = some user ∧ user.id ≠ "" ∧
      ∃ team, resolveTeam user session = some team ∧
      t = { id := "ticket-" ++ toString now
            uid := draft.uid
            preId := user.id
            errorTypeId := draft.errorTypeId
            description := draft.description
            comment := draft.comment
            status := initialStatus messages s.tickets draft
            createdAt := now
            updatedAt := now
            rpName := draft.rpName
            team := team
            subject := draft.subject
            attachment := draft.attachment } ∧
      s2.tickets = t :: s.tickets ∧
      s2.adminNotifications =
        { id := "admin-notif-" ++ toString now
          ticketId := t.id
          message :=
            if t.status = TicketStatus.escalated then
              "Ticket for UID " ++ t.uid ++ " was re-submitted and has been escalated."
            else "New ticket from UID " ++ t.uid ++ " was created."
          timestamp := now
          isRead := false } :: s.adminNotifications ∧
      s2.logs =
        { id := "log-" ++ toString now
          ticketId := t.id
          userId := user.id
          action := "CREATE"
          timestamp := now
          details := "Ticket created for UID " ++ t.uid ++ " with status " ++
            statusText t.status ++ "." } :: s.logs ∧
      s2.notifications =
        (match messages.find? (fun m => decide (m.errorTypeId = draft.errorTypeId)) with
         | some am =>
           if t.status = TicketStatus.closed then
             { id := "notif-" ++ toString now
               ticketId := t.id
               preId := user.id
               uid := t.uid
               message := "Ticket #" ++ ticketNum t.id ++ " for UID " ++ t.uid ++ ": " ++
                 am.message
               timestamp := now
               isRead := false } ::
               (if t.status = TicketStatus.escalated then
                  { id := "notif-" ++ toString now
                    ticketId := t.id
                    preId := user.id
                    uid := t.uid
                    message := "Your ticket submission for UID " ++ t.uid ++ " (Ticket #" ++
                      ticketNum t.id ++ ") was escalated."
                    timestamp := now
                    isRead := false } :: s.notifications
                else s.notifications)
           else
             (if t.status = TicketStatus.escalated then
                { id := "notif-" ++ toString now
                  ticketId := t.id
                  preId := user.id
                  uid := t.uid
                  message := "Your ticket submission for UID " ++ t.uid ++ " (Ticket #" ++
                    ticketNum t.id ++ ") was escalated."
                  timestamp := now
                  isRead := false } :: s.notifications
              else s.notifications)
         | none =>
           (if t.status = TicketStatus.escalated then
              { id := "notif-" ++ toString now
                ticketId := t.id
                preId := user.id
                uid := t.uid
                message := "Your ticket submission for UID " ++ t.uid ++ " (Ticket #" ++
                  ticketNum t.id ++ ") was escalated."
                timestamp := now
                isRead := false } :: s.notifications
            else s.notifications)) := by
  unfold addTicket at hok
  cases hs : session.user with
  | none =>
    simp only [hs] at hok
    exact absurd hok (by simp)
  | some user =>
    simp only [hs] at hok
    by_cases hid : user.id = ""
    · rw [if_pos hid] at hok
      exact absurd hok (by simp)
    · rw [if_neg hid] at hok
      cases ht : resolveTeam user session with
      | none =>
        simp only [ht] at hok
        exact absurd hok (by simp)
      | some team =>
        simp only [ht, Except.ok.injEq, Prod.mk.injEq] at hok
        obtain ⟨hT, hS⟩ := hok
        subst hT
        subst hS
        exact ⟨user, rfl, hid, team, ht, rfl, rfl, rfl, rfl, rfl⟩

/-- C1: the initial status of a created ticket is InProgress when no
AutomatedMessage matches the draft error type, Closed when one matches and no
existing ticket carries the same uid and error type pair, and Escalated when
one matches and such an existing ticket is present. -/
theorem addTicket_initial_status (session : SessionState) (messages : List AutomatedMessage)
    (s : StoreState) (draft : TicketDraft) (now : Int) (t : Ticket) (s2 : StoreState)
    (hok : addTicket session messages s draft now = Except.ok (t, s2)) :
    ((∀ m ∈ messages, m.errorTypeId ≠ draft.errorTypeId) →
      t.status = TicketStatus.inProgress) ∧
    ((∃ m ∈ messages, m.errorTypeId = draft.errorTypeId) →
      (∀ tk ∈ s.tickets, ¬(tk.uid = draft.uid ∧ tk.errorTypeId = draft.errorTypeId)) →
      t.status = TicketStatus.closed) ∧
    ((∃ m ∈ messages, m.errorTypeId = draft.errorTypeId) →
      (∃ tk ∈ s.tickets, tk.uid = draft.uid ∧ tk.errorTypeId = draft.errorTypeId) →
      t.status = TicketStatus.escalated) := by
  obtain ⟨user, -, -, team, -, hT, -⟩ := addTicket_ok_parts hok
  have hst : t.status = initialStatus messages s.tickets draft := by rw [hT]
  exact ⟨fun h => by rw [hst, initialStatus_inProgress h],
    fun h1 h2 => by rw [hst, initialStatus_closed h1 h2],
    fun h1 h2 => by rw [hst, initialStatus_escalated h1 h2]⟩

lemma adminMessages_ne (uid : String) :
    "Ticket for UID " ++ uid ++ " was re-submitted and has been escalated." ≠
      "New ticket from UID " ++ uid ++ " was created." := by
  intro h
  have hl := congrArg String.length h
  simp only [String.length_append] at hl
  have h1 : ("Ticket for UID ").length = 15 := rfl
  have h2 : (" was re-submitted and has been escalated.").length = 41 := rfl
  have h3 : ("New ticket from UID ").length = 20 := rfl
  have h4 : (" was created.").length = 13 := rfl
  rw [h1, h2, h3, h4] at hl
  omega

/-- C2: every successful creation prepends exactly one AdminNotification for the
new ticket, with a different text in the escalated case, and exactly one CREATE
audit entry naming the uid and resulting status; the auto-closed case
additionally prepends exactly one SystemNotification carrying the automated
message text, the escalated case exactly one SystemNotification describing the
escalation, and the InProgress case none. -/
theorem addTicket_create_side_effects (session : SessionState)
    (messages : List AutomatedMessage) (s : StoreState) (draft : TicketDraft) (now : Int)
    (t : Ticket) (s2 : StoreState)
    (hok : addTicket session messages s draft now = Except.ok (t, s2)) :
    (∃ an, s2.adminNotifications = an :: s.adminNotifications ∧ an.ticketId = t.id ∧
      an.message = (if t.status = TicketStatus.escalated then
          "Ticket for UID " ++ t.uid ++ " was re-submitted and has been escalated."
        else "New ticket from UID " ++ t.uid ++ " was created.") ∧
      "Ticket for UID " ++ t.uid ++ " was re-submitted and has been escalated." ≠
        "New ticket from UID " ++ t.uid ++ " was created.") ∧
    (∃ lg, s2.logs = lg :: s.logs ∧ lg.action = "CREATE" ∧ lg.ticketId = t.id ∧
      lg.userId = t.preId ∧
      lg.details = "Ticket created for UID " ++ t.uid ++ " with status " ++
        statusText t.status ++ ".") ∧
    (t.status = TicketStatus.inProgress → s2.notifications = s.notifications) ∧
    (t.status = TicketStatus.closed →
      ∃ am sn, am ∈ messages ∧ am.errorTypeId = draft.errorTypeId ∧
        s2.notifications = sn :: s.notifications ∧ sn.ticketId = t.id ∧ sn.preId = t.preId ∧
        sn.message = "Ticket #" ++ ticketNum t.id ++ " for UID " ++ t.uid ++ ": " ++
          am.message ∧ sn.isRead = false) ∧
    (t.status = TicketStatus.escalated →
      ∃ sn, s2.notifications = sn :: s.notifications ∧ sn.ticketId = t.id ∧
        sn.preId = t.preId ∧
        sn.message = "Your ticket submission for UID " ++ t.uid ++ " (Ticket #" ++
          ticketNum t.id ++ ") was escalated." ∧ sn.isRead = false) := by
  obtain ⟨user, hs, huid, team, ht, hT, hTk, hAdm, hLog, hNotif⟩ := addTicket_ok_parts hok
  have hstatus : t.status = initialStatus messages s.tickets draft := by rw [hT]
  refine ⟨⟨_, hAdm, rfl, rfl, adminMessages_ne t.uid⟩,
    ⟨_, hLog, rfl, rfl, by rw [hT], rfl⟩, ?_, ?_, ?_⟩
  · intro hip
    rw [hNotif]
    cases hfind : messages.find? (fun m => decide (m.errorTypeId = draft.errorTypeId)) with
    | none =>
      simp only [hfind]
      simp [hip]
    | some am =>
      exfalso
      unfold initialStatus at hstatus
      simp only [hfind] at hstatus
      cases hfind2 : s.tickets.find?
          (fun tk => decide (tk.uid = draft.uid ∧ tk.errorTypeId = draft.errorTypeId)) with
      | none =>
        simp only [hfind2] at hstatus
        rw [hip] at hstatus
        exact TicketStatus.noConfusion hstatus
      | some tk2 =>
        simp only [hfind2] at hstatus
        rw [hip] at hstatus
        exact TicketStatus.noConfusion hstatus
  · intro hcl
    cases hfind : messages.find? (fun m => decide (m.errorTypeId = draft.errorTypeId)) with
    | none =>
      exfalso
      unfold initialStatus at hstatus
      simp only [hfind] at hstatus
      rw [hcl] at hstatus
      exact TicketStatus.noConfusion hstatus
    | some am =>
      have hnn : s2.notifications =
          { id := "notif-" ++ toString now
            ticketId := t.id
            preId := user.id
            uid := t.uid
            message := "Ticket #" ++ ticketNum t.id ++ " for UID " ++ t.uid ++ ": " ++
              am.message
            timestamp := now
            isRead := false } :: s.notifications := by
        rw [hNotif]
        simp only [hfind]
        rw [if_pos hcl, if_neg (by rw [hcl]; exact fun h => TicketStatus.noConfusion h)]
      refine ⟨am, _, List.mem_of_find?_eq_some hfind, ?_, hnn, rfl, by rw [hT], rfl, rfl⟩
      have h3 := List.find?_some hfind
      simpa using h3
  · intro hesc
    cases hfind : messages.find? (fun m => decide (m.errorTypeId = draft.errorTypeId)) with
    | none =>
      exfalso
      unfold initialStatus at hstatus
      simp only [hfind] at hstatus
      rw [hesc] at hstatus
      exact TicketStatus.noConfusion hstatus
    | some am =>
      have hnn : s2.notifications =
          { id := "notif-" ++ toString now
            ticketId := t.id
            preId := user.id
            uid := t.uid
            message := "Your ticket submission for UID " ++ t.uid ++ " (Ticket #" ++
              ticketNum t.id ++ ") was escalated."
            timestamp := now
            isRead := false } :: s.notifications := by
        rw [hNotif]
        simp only [hfind]
        rw [if_neg (by rw [hesc]; exact fun h => TicketStatus.noConfusion h), if_pos hesc]
      exact ⟨_, hnn, rfl, by rw [hT], rfl, rfl⟩

/-- C5: Create fails with the session error exactly when no acting user
resolves, fails with the team error exactly when a user resolves but no team
does (the session team for a PRE, the profile team otherwise), and succeeds
with the fully populated ticket whenever a user and a team resolve; stated for
sessions whose user id is nonempty, as every identifier generated or shipped by
the repository is. -/
theorem addTicket_error_kinds (session : SessionState) (messages : List AutomatedMessage)
    (s : StoreState) (draft : TicketDraft) (now : Int)
    (hid : ∀ u, session.user = some u → u.id ≠ "") :
    (addTicket session messages s draft now = Except.error CreateError.sessionInvalid ↔
      session.user = none) ∧
    (addTicket session messages s draft now = Except.error CreateError.teamUnresolved ↔
      ∃ u, session.user = some u ∧ resolveTeam u session = none) ∧
    (∀ u team, session.user = some u → resolveTeam u session = some team →
      ∃ s2, addTicket session messages s draft now = Except.ok
        ({ id := "ticket-" ++ toString now
           uid := draft.uid
           preId := u.id
           errorTypeId := draft.errorTypeId
           description := draft.description
           comment := draft.comment
           status := initialStatus messages s.tickets draft
           createdAt := now
           updatedAt := now
           rpName := draft.rpName
           team := team
           subject := draft.subject
           attachment := draft.attachment }, s2)) := by
  cases hu : session.user with
  | none =>
    have hEq : addTicket session messages s draft now =
        Except.error CreateError.sessionInvalid := by
      unfold addTicket
      rw [hu]
    refine ⟨by simp [hEq], by simp [hEq], ?_⟩
    intro u team h1 _
    exact absurd h1 (by simp)
  | some u =>
    have hidu : u.id ≠ "" := hid u hu
    cases hteam : resolveTeam u session with
    | none =>
      have hEq : addTicket session messages s draft now =
          Except.error CreateError.teamUnresolved := by
        unfold addTicket
        simp only [hu]
        rw [if_neg hidu]
        simp only [hteam]
      refine ⟨by simp [hEq], ?_, ?_⟩
      · constructor
        · intro _
          exact ⟨u, rfl, hteam⟩
        · intro _
          exact hEq
      · intro u2 team h1 h2
        injection h1 with h1
        rw [← h1] at h2
        rw [h2] at hteam
        exact absurd hteam (by simp)
    | some team =>
      have hEq : addTicket session messages s draft now = Except.ok
          ({ id := "ticket-" ++ toString now
             uid := draft.uid
             preId := u.id
             errorTypeId := draft.errorTypeId
             description := draft.description
             comment := draft.comment
             status := initialStatus messages s.tickets draft
             createdAt := now
             updatedAt := now
             rpName := draft.rpName
             team := team
             subject := draft.subject
             attachment := draft.attachment },
           { tickets := { id := "ticket-" ++ toString now
                          uid := draft.uid
                          preId := u.id
                          errorTypeId := draft.errorTypeId
                          description := draft.description
                          comment := draft.comment
                          status := initialStatus messages s.tickets draft
                          createdAt := now
                          updatedAt := now
                          rpName := draft.rpName
                          team := team
                          subject := draft.subject
                          attachment := draft.attachment } :: s.tickets
             notifications :=
               (match messages.find? (fun m => decide (m.errorTypeId = draft.errorTypeId)) with
                | some am =>
                  if initialStatus messages s.tickets draft = TicketStatus.closed then
                    { id := "notif-" ++ toString now
                      ticketId := "ticket-" ++ toString now
                      preId := u.id
                      uid := draft.uid
                      message := "Ticket #" ++ ticketNum ("ticket-" ++ toString now) ++
                        " for UID " ++ draft.uid ++ ": " ++ am.message
                      timestamp := now
                      isRead := false } ::
                      (if initialStatus messages s.tickets draft = TicketStatus.escalated then
                         { id := "notif-" ++ toString now
                           ticketId := "ticket-" ++ toString now
                           preId := u.id
                           uid := draft.uid
                           message := "Your ticket submission for UID " ++ draft.uid ++
                             " (Ticket #" ++ ticketNum ("ticket-" ++ toString now) ++
                             ") was escalated."
                           timestamp := now
                           isRead := false } :: s.notifications
                       else s.notifications)
                  else
                    (if initialStatus messages s.tickets draft = TicketStatus.escalated then
                       { id := "notif-" ++ toString now
                         ticketId := "ticket-" ++ toString now
                         preId := u.id
                         uid := draft.uid
                         message := "Your ticket submission for UID " ++ draft.uid ++
                           " (Ticket #" ++ ticketNum ("ticket-" ++ toString now) ++
                           ") was escalated."
                         timestamp := now
                         isRead := false } :: s.notifications
                     else s.notifications)
                | none =>
                  (if initialStatus messages s.tickets draft = TicketStatus.escalated then
                     { id := "notif-" ++ toString now
                       ticketId := "ticket-" ++ toString now
                       preId := u.id
                       uid := draft.uid
                       message := "Your ticket submission for UID " ++ draft.uid ++
                         " (Ticket #" ++ ticketNum ("ticket-" ++ toString now) ++
                         ") was escalated."
                       timestamp := now
                       isRead := false } :: s.notifications
                   else s.notifications))
             adminNotifications :=
               { id := "admin-notif-" ++ toString now
                 ticketId := "ticket-" ++ toString now
                 message :=
                   if initialStatus messages s.tickets draft = TicketStatus.escalated then
                     "Ticket for UID " ++ draft.uid ++ " was re-submitted and has been escalated."
                   else "New ticket from UID " ++ draft.uid ++ " was created."
                 timestamp := now
                 isRead := false } :: s.adminNotifications
             logs :=
               { id := "log-" ++ toString now
                 ticketId := "ticket-" ++ toString now
                 userId := u.id
                 action := "CREATE"
                 timestamp := now
                 details := "Ticket created for UID " ++ draft.uid ++ " with status " ++
                   statusText (initialStatus messages s.tickets draft) ++ "."
               } :: s.logs }) := by
        unfold addTicket
        simp only [hu]
        rw [if_neg hidu]
        simp only [hteam]
      refine ⟨by simp [hEq], by simp [hEq, hteam], ?_⟩
      intro u2 team2 h1 h2
      injection h1 with h1
      subst h1
      rw [hteam] at h2
      injection h2 with h2
      subst h2
      exact ⟨_, hEq⟩

lemma updateTicket_no_user {session : SessionState} {s : StoreState} {p : TicketPatch}
    {now : Int} (h : session.user = none) : updateTicket session s p now = s := by
  unfold updateTicket
  simp only [h]

lemma updateTicket_empty_id {session : SessionState} {s : StoreState} {p : TicketPatch}
    {now : Int} {u : User} (hu : session.user = some u) (h : u.id = "") :
    updateTicket session s p now = s := by
  unfold updateTicket
  simp only [hu]
  rw [if_pos h]

lemma updateTicket_not_found {session : SessionState} {s : StoreState} {p : TicketPatch}
    {now : Int} {u : User} (hu : session.user = some u) (hid2 : u.id ≠ "")
    (hnf : s.tickets.find? (fun tk => decide (tk.id = p.id)) = none) :
    updateTicket session s p now =
      { s with logs :=
          { id := "log-" ++ toString now
            ticketId := p.id
            userId := u.id
            action := "UPDATE"
            timestamp := now
            details :=
              match p.status with
              | some st => "Status changed to " ++ statusText st ++ " for ticket " ++ p.id ++ "."
              | none => "Ticket details updated for " ++ p.id ++ "." } :: s.logs } := by
  unfold updateTicket
  simp only [hu]
  rw [if_neg hid2]
  simp only [hnf]

lemma updateTicket_found_parts {session : SessionState} {s : StoreState} {p : TicketPatch}
    {now : Int} {u : User} {orig : Ticket} (hu : session.user = some u) (hid2 : u.id ≠ "")
    (hfind : s.tickets.find? (fun tk => decide (tk.id = p.id)) = some orig) :
    (updateTicket session s p now).tickets =
      replaceFirst (fun tk => decide (tk.id = p.id)) (applyPatch orig p now) s.tickets ∧
    (updateTicket session s p now).adminNotifications =
      (if p.status = some TicketStatus.escalated ∧ orig.status ≠ TicketStatus.escalated then
        { id := "admin-notif-" ++ toString now
          ticketId := p.id
          message := "Ticket for UID " ++ orig.uid ++ " has been escalated."
          timestamp := now
          isRead := false } :: s.adminNotifications
       else s.adminNotifications) ∧
    (updateTicket session s p now).notifications =
      (if ((applyPatch orig p now).status = TicketStatus.completed ∨
            (applyPatch orig p now).status = TicketStatus.closed) ∧
          orig.status ≠ (applyPatch orig p now).status then
        { id := "notif-" ++ toString now
          ticketId := (applyPatch orig p now).id
          preId := (applyPatch orig p now).preId
          uid := (applyPatch orig p now).uid
          message := "Your ticket #" ++ ticketNum (applyPatch orig p now).id ++ " for UID " ++
            (applyPatch orig p now).uid ++ " has been resolved. DataCR Comment: \"" ++
            jsOrElse (applyPatch orig p now).comment "No comment provided." ++ "\""
          timestamp := now
          isRead := false } ::
          (if p.status = some TicketStatus.escalated ∧ orig.status ≠ TicketStatus.escalated then
            { id := "notif-escalated-" ++ toString now
              ticketId := (applyPatch orig p now).id
              preId := (applyPatch orig p now).preId
              uid := (applyPatch orig p now).uid
              message := "Your ticket #" ++ ticketNum (applyPatch orig p now).id ++
                " for UID " ++ (applyPatch orig p now).uid ++ " has been manually escalated."
              timestamp := now
              isRead := false } :: s.notifications
           else s.notifications)
       else
        (if p.status = some TicketStatus.escalated ∧ orig.status ≠ TicketStatus.escalated then
          { id := "notif-escalated-" ++ toString now
            ticketId := (applyPatch orig p now).id
            preId := (applyPatch orig p now).preId
            uid := (applyPatch orig p now).uid
            message := "Your ticket #" ++ ticketNum (applyPatch orig p now).id ++
              " for UID " ++ (applyPatch orig p now).uid ++ " has been manually escalated."
            timestamp := now
            isRead := false } :: s.notifications
         else s.notifications)) ∧
    (updateTicket session s p now).logs =
      { id := "log-" ++ toString now
        ticketId := p.id
        userId := u.id
        action := "UPDATE"
        timestamp := now
        details :=
          match p.status with
          | some st =>
            if st ≠ orig.status then
              "Status changed to " ++ statusText st ++ " for ticket " ++ p.id ++ "."
            else "Ticket details updated for " ++ p.id ++ "."
          | none => "Ticket details updated for " ++ p.id ++ "." } :: s.logs := by
  unfold updateTicket
  simp only [hu]
  rw [if_neg hid2]
  simp only [hfind]
  refine ⟨?_, ?_, ?_, ?_⟩ <;> trivial

lemma applyPatch_status_of_patch {orig : Ticket} {p : TicketPatch} {now : Int}
    {st : TicketStatus} (h : p.status = some st) : (applyPatch orig p now).status = st := by
  simp [applyPatch, h]

/-- C3: an update of an existing ticket by a resolved acting user emits exactly
one AdminNotification and one SystemNotification describing a manual
escalation when the patch escalates a not-yet-escalated ticket; otherwise
exactly one SystemNotification embedding the patched comment or the fixed
placeholder when the resulting status is Completed or Closed and differs from
the prior status; all other updates emit no notification, and the two rules
can never fire together. -/
theorem updateTicket_notification_rules (session : SessionState) (s : StoreState)
    (p : TicketPatch) (now : Int) (u : User) (orig : Ticket)
    (hu : session.user = some u) (hid2 : u.id ≠ "")
    (hfind : s.tickets.find? (fun tk => decide (tk.id = p.id)) = some orig) :
    ((p.status = some TicketStatus.escalated ∧ orig.status ≠ TicketStatus.escalated) →
      ∃ an sn,
        (updateTicket session s p now).adminNotifications = an :: s.adminNotifications ∧
        (updateTicket session s p now).notifications = sn :: s.notifications ∧
        an.message = "Ticket for UID " ++ orig.uid ++ " has been escalated." ∧
        sn.message = "Your ticket #" ++ ticketNum (applyPatch orig p now).id ++ " for UID " ++
          (applyPatch orig p now).uid ++ " has been manually escalated.") ∧
    (¬(p.status = some TicketStatus.escalated ∧ orig.status ≠ TicketStatus.escalated) →
      (((applyPatch orig p now).status = TicketStatus.completed ∨
          (applyPatch orig p now).status = TicketStatus.closed) ∧
        orig.status ≠ (applyPatch orig p now).status) →
      (updateTicket session s p now).adminNotifications = s.adminNotifications ∧
      ∃ sn, (updateTicket session s p now).notifications = sn :: s.notifications ∧
        sn.message = "Your ticket #" ++ ticketNum (applyPatch orig p now).id ++ " for UID " ++
          (applyPatch orig p now).uid ++ " has been resolved. DataCR Comment: \"" ++
          jsOrElse (applyPatch orig p now).comment "No comment provided." ++ "\"") ∧
    (¬(p.status = some TicketStatus.escalated ∧ orig.status ≠ TicketStatus.escalated) →
      ¬(((applyPatch orig p now).status = TicketStatus.completed ∨
          (applyPatch orig p now).status = TicketStatus.closed) ∧
        orig.status ≠ (applyPatch orig p now).status) →
      (updateTicket session s p now).adminNotifications = s.adminNotifications ∧
      (updateTicket session s p now).notifications = s.notifications) ∧
    ¬((p.status = some TicketStatus.escalated ∧ orig.status ≠ TicketStatus.escalated) ∧
      (((applyPatch orig p now).status = TicketStatus.completed ∨
          (applyPatch orig p now).status = TicketStatus.closed) ∧
        orig.status ≠ (applyPatch orig p now).status)) := by
  obtain ⟨hTk, hAdm, hNotif, hLog⟩ := updateTicket_found_parts hu hid2 hfind
  have hexcl : ¬((p.status = some TicketStatus.escalated ∧
      orig.status ≠ TicketStatus.escalated) ∧
      (((applyPatch orig p now).status = TicketStatus.completed ∨
        (applyPatch orig p now).status = TicketStatus.closed) ∧
        orig.status ≠ (applyPatch orig p now).status)) := by
    rintro ⟨⟨hps, -⟩, ⟨hor, -⟩⟩
    rw [applyPatch_status_of_patch hps] at hor
    rcases hor with h | h
    · exact TicketStatus.noConfusion h
    · exact TicketStatus.noConfusion h
  refine ⟨?_, ?_, ?_, hexcl⟩
  · intro hE
    have hnR : ¬(((applyPatch orig p now).status = TicketStatus.completed ∨
        (applyPatch orig p now).status = TicketStatus.closed) ∧
        orig.status ≠ (applyPatch orig p now).status) := fun hR => hexcl ⟨hE, hR⟩
    rw [if_pos hE] at hAdm
    rw [if_neg hnR, if_pos hE] at hNotif
    exact ⟨_, _, hAdm, hNotif, rfl, rfl⟩
  · intro hnE hR
    rw [if_neg hnE] at hAdm
    rw [if_pos hR, if_neg hnE] at hNotif
    exact ⟨hAdm, _, hNotif, rfl⟩
  · intro hnE hnR
    rw [if_neg hnE] at hAdm
    rw [if_neg hnR, if_neg hnE] at hNotif
    exact ⟨hAdm, hNotif⟩

/-- C4 (amended): updateTicket is a complete silent no-op when the acting user
cannot be resolved; when the user resolves but no ticket carries the given id
it raises no error and leaves tickets and both notification collections
unchanged, yet still appends one audit entry of action UPDATE. -/
theorem updateTicket_tolerant_amended (session : SessionState) (s : StoreState)
    (p : TicketPatch) (now : Int) :
    (session.user = none → updateTicket session s p now = s) ∧
    (∀ u, session.user = some u → u.id = "" → updateTicket session s p now = s) ∧
    (∀ u, session.user = some u → u.id ≠ "" →
      s.tickets.find? (fun tk => decide (tk.id = p.id)) = none →
      (updateTicket session s p now).tickets = s.tickets ∧
      (updateTicket session s p now).notifications = s.notifications ∧
      (updateTicket session s p now).adminNotifications = s.adminNotifications ∧
      ∃ lg, (updateTicket session s p now).logs = lg :: s.logs ∧ lg.action = "UPDATE") := by
  refine ⟨fun h => updateTicket_no_user h, fun u hu h => updateTicket_empty_id hu h, ?_⟩
  intro u hu hid2 hnf
  rw [updateTicket_not_found hu hid2 hnf]
  exact ⟨rfl, rfl, rfl, _, rfl, rfl⟩

/-- Acting user of the concrete counterexample inputs below. -/
def cAdminUser : User :=
  { id := "user-2"
    name := "Bob"
    email := "admin@example.com"
    role := Role.admin
    team := none
    managerId := none }

/-- Session used by the counterexamples below: a resolved admin user. -/
def cSession : SessionState :=
  { user := some cAdminUser, team := none }

def cEmptyState : StoreState :=
  { tickets := [], notifications := [], adminNotifications := [], logs := [] }

/-- Counterexample to C4 as stated: updating a nonexistent ticket id with a
resolved acting user leaves no visible error but appends an UPDATE audit
entry, so the audit log does not stay unchanged. -/
theorem updateTicket_missing_ticket_still_logs :
    (∀ tk ∈ cEmptyState.tickets, tk.id ≠ "ticket-404") ∧
    (updateTicket cSession cEmptyState { id := "ticket-404" } 7).logs ≠ cEmptyState.logs := by
  decide

lemma replaceFirst_mem {α : Type} {q : α → Bool} {x y : α} {l : List α}
    (hy : y ∈ replaceFirst q x l) : y = x ∨ y ∈ l := by
  induction l with
  | nil => simp [replaceFirst] at hy
  | cons a rest ih =>
    by_cases hqa : q a
    · rw [replaceFirst, if_pos hqa] at hy
      rcases List.mem_cons.mp hy with h | h
      · exact Or.inl h
      · exact Or.inr (List.mem_cons_of_mem a h)
    · rw [replaceFirst, if_neg hqa] at hy
      rcases List.mem_cons.mp hy with h | h
      · exact Or.inr (h ▸ List.mem_cons_self a rest)
      · rcases ih h with h2 | h2
        · exact Or.inl h2
        · exact Or.inr (List.mem_cons_of_mem a h2)

/-- C10 (amended): Create stamps both timestamps with the creation instant, so
a store whose tickets satisfy updatedAt at least createdAt keeps satisfying it
after Create; Update stamps updatedAt with the update instant, and keeps the
invariant provided the patch does not set createdAt and the update instant is
not earlier than the stored createdAt values. -/
theorem timestamps_invariant_amended (session : SessionState)
    (messages : List AutomatedMessage) (s : StoreState) (draft : TicketDraft)
    (p : TicketPatch) (now : Int) :
    (∀ t s2, addTicket session messages s draft now = Except.ok (t, s2) →
      t.createdAt = now ∧ t.updatedAt = now ∧
      ((∀ tk ∈ s.tickets, tk.createdAt ≤ tk.updatedAt) →
        ∀ tk ∈ s2.tickets, tk.createdAt ≤ tk.updatedAt)) ∧
    (p.createdAt = none →
      (∀ tk ∈ s.tickets, tk.createdAt ≤ tk.updatedAt ∧ tk.createdAt ≤ now) →
      ∀ tk ∈ (updateTicket session s p now).tickets, tk.createdAt ≤ tk.updatedAt) := by
  constructor
  · intro t s2 hok
    obtain ⟨user, -, -, team, -, hT, hTk, -, -, -⟩ := addTicket_ok_parts hok
    refine ⟨by rw [hT], by rw [hT], ?_⟩
    intro hinv tk htk
    rw [hTk] at htk
    rcases List.mem_cons.mp htk with rfl | h
    · rw [hT]
    · exact hinv tk h
  · intro hpc hinv
    cases hu : session.user with
    | none =>
      rw [updateTicket_no_user hu]
      exact fun tk htk => (hinv tk htk).1
    | some u =>
      by_cases hid2 : u.id = ""
      · rw [updateTicket_empty_id hu hid2]
        exact fun tk htk => (hinv tk htk).1
      · cases hfind : s.tickets.find? (fun tk => decide (tk.id = p.id)) with
        | none =>
          rw [updateTicket_not_found hu hid2 hfind]
          exact fun tk htk => (hinv tk htk).1
        | some orig =>
          obtain ⟨hTk, -, -, -⟩ := updateTicket_found_parts hu hid2 hfind
          rw [hTk]
          intro tk htk
          rcases replaceFirst_mem htk with rfl | h
          · have horig : orig ∈ s.tickets := List.mem_of_find?_eq_some hfind
            have hc : (applyPatch orig p now).createdAt = orig.createdAt := by
              simp [applyPatch, hpc]
            have hupd : (applyPatch orig p now).updatedAt = now := rfl
            rw [hc, hupd]
            exact (hinv orig horig).2
          · exact (hinv tk h).1

/-- Store used by the timestamp counterexample: one ticket created and updated
at instant 0. -/
def cTicketZero : Ticket :=
  { id := "ticket-0"
    uid := "UID1"
    preId := "user-1"
    errorTypeId := "et-1"
    description := "d"
    comment := none
    status := TicketStatus.inProgress
    createdAt := 0
    updatedAt := 0
    rpName := none
    team := Team.onboarding
    subject := none
    attachment := none }

def cStateTs : StoreState :=
  { tickets := [cTicketZero], notifications := [], adminNotifications := [], logs := [] }

/-- Counterexample to C10 as stated: a patch carrying createdAt later than the
update instant leaves the stored ticket with updatedAt strictly earlier than
createdAt. -/
theorem updateTicket_can_break_timestamp_invariant :
    (updateTicket cSession cStateTs { id := "ticket-0", createdAt := some 10 } 1).tickets.any
      (fun tk => decide (tk.updatedAt < tk.createdAt)) = true := by
  decide

/-- Termination measure of the subordinate search loop: the number of distinct
user ids not yet visited plus the number of queued entries not yet processed. -/
def bfsMeasure (us : List User) (st : BfsState) : Nat :=
  ((us.map User.id).dedup.filter (fun x => decide (x ∉ st.visited))).length +
    st.pending.length

lemma length_filter_ne_of_nodup {l : List String} (hnd : l.Nodup) {a : String}
    (ha : a ∈ l) : (l.filter (fun x => decide (x ≠ a))).length + 1 = l.length := by
  induction l with
  | nil => cases ha
  | cons b rest ih =>
    have hbr : b ∉ rest := (List.nodup_cons.mp hnd).1
    have hrest : rest.Nodup := (List.nodup_cons.mp hnd).2
    rcases List.mem_cons.mp ha with rfl | hmem
    · have hself : (decide (a ≠ a) : Bool) = false := by simp
      rw [List.filter_cons, hself]
      have : rest.filter (fun x => decide (x ≠ a)) = rest := by
        apply List.filter_eq_self.mpr
        intro x hx
        simp only [decide_eq_true_eq]
        intro he
        exact hbr (he ▸ hx)
      rw [this]
      simp
    · have hba : b ≠ a := fun he => hbr (he ▸ hmem)
      have hkeep : (decide (b ≠ a) : Bool) = true := by simp [hba]
      rw [List.filter_cons, hkeep]
      simp only [if_true, List.length_cons]
      have := ih hrest hmem
      omega

lemma bfsMeasure_enqueue_le {us : List User} {st : BfsState} {u : User} (hu : u ∈ us) :
    bfsMeasure us (enqueueChild st u) ≤ bfsMeasure us st := by
  unfold enqueueChild
  by_cases hx : u.id ∈ st.visited
  · rw [if_pos hx]
  · rw [if_neg hx]
    unfold bfsMeasure
    simp only [List.length_append, List.length_singleton]
    have hpt : ∀ x : String,
        (decide (x ∉ u.id :: st.visited) : Bool) =
          (decide (x ≠ u.id) && decide (x ∉ st.visited)) := by
      intro x
      rw [← Bool.decide_and, decide_eq_decide]
      simp [not_or]
    have hrw : (us.map User.id).dedup.filter (fun x => decide (x ∉ u.id :: st.visited)) =
        ((us.map User.id).dedup.filter (fun x => decide (x ∉ st.visited))).filter
          (fun x => decide (x ≠ u.id)) := by
      rw [List.filter_filter]
      exact List.filter_congr (fun x _ => hpt x)
    rw [hrw]
    have hmemL : u.id ∈ (us.map User.id).dedup.filter (fun x => decide (x ∉ st.visited)) := by
      rw [List.mem_filter]
      exact ⟨List.mem_dedup.mpr (List.mem_map_of_mem User.id hu), by simpa using hx⟩
    have hnd : ((us.map User.id).dedup.filter (fun x => decide (x ∉ st.visited))).Nodup :=
      (List.nodup_dedup _).filter _
    have hlen := length_filter_ne_of_nodup hnd hmemL
    omega

lemma bfsMeasure_foldl_le {us : List User} :
    ∀ (l : List User) {st : BfsState}, (∀ x ∈ l, x ∈ us) →
      bfsMeasure us (l.foldl enqueueChild st) ≤ bfsMeasure us st := by
  intro l
  induction l with
  | nil => intro st _; exact Nat.le_refl _
  | cons a rest ih =>
    intro st hsub
    simp only [List.foldl_cons]
    calc bfsMeasure us (rest.foldl enqueueChild (enqueueChild st a)) ≤
        bfsMeasure us (enqueueChild st a) :=
          ih (fun x hx => hsub x (List.mem_cons_of_mem a hx))
      _ ≤ bfsMeasure us st := bfsMeasure_enqueue_le (hsub a (List.mem_cons_self a rest))

lemma bfsMeasure_step_lt {us : List User} {s : BfsState} (hp : s.pending ≠ []) :
    bfsMeasure us (stepBfs us s) < bfsMeasure us s := by
  obtain ⟨pending, visited, subs⟩ := s
  cases pending with
  | nil => exact absurd rfl hp
  | cons h rest =>
    have hstep : stepBfs us ⟨h :: rest, visited, subs⟩ =
        (us.filter (fun u => decide (u.managerId = some h))).foldl enqueueChild
          ⟨rest, visited, subs⟩ := rfl
    rw [hstep]
    have hfold := @bfsMeasure_foldl_le us
      (us.filter (fun u => decide (u.managerId = some h)))
      ⟨rest, visited, subs⟩ (fun x hx => (List.mem_filter.mp hx).1)
    have hm : bfsMeasure us ⟨h :: rest, visited, subs⟩ =
        bfsMeasure us ⟨rest, visited, subs⟩ + 1 := by
      unfold bfsMeasure
      simp only [List.length_cons]
      omega
    omega

lemma runBfs_pending_nil {us : List User} :
    ∀ (n : Nat) (s : BfsState), bfsMeasure us s ≤ n → (runBfs us n s).pending = [] := by
  intro n
  induction n with
  | zero =>
    intro s hs
    have : s.pending.length = 0 := by
      unfold bfsMeasure at hs
      omega
    exact List.length_eq_zero.mp this
  | succ n ih =>
    intro s hs
    by_cases hp : s.pending = []
    · simp only [runBfs]
      rw [if_pos hp]
      exact hp
    · simp only [runBfs]
      rw [if_neg hp]
      have := @bfsMeasure_step_lt us s hp
      exact ih (stepBfs us s) (by omega)

lemma runBfs_stable {us : List User} :
    ∀ (n : Nat) (s : BfsState), (runBfs us n s).pending = [] →
      ∀ (k : Nat), runBfs us (n + k) s = runBfs us n s := by
  intro n
  induction n with
  | zero =>
    intro s hs k
    simp only [runBfs] at hs
    cases k with
    | zero => rfl
    | succ k2 =>
      simp only [Nat.zero_add, runBfs]
      rw [if_pos hs]
  | succ n ih =>
    intro s hs k
    by_cases hp : s.pending = []
    · simp only [runBfs] at hs ⊢
      rw [if_pos hp] at hs ⊢
      have : n + 1 + k = (n + k) + 1 := by omega
      rw [this]
      simp only [runBfs]
      rw [if_pos hp]
    · simp only [runBfs] at hs ⊢
      rw [if_neg hp] at hs ⊢
      have : n + 1 + k = (n + k) + 1 := by omega
      rw [this]
      simp only [runBfs]
      rw [if_neg hp]
      exact ih (stepBfs us s) hs k

lemma bfsMeasure_init_le (us : List User) (m : String) :
    bfsMeasure us (initBfs m) ≤ us.length + 1 := by
  unfold bfsMeasure initBfs
  simp only [List.length_singleton]
  have h1 : ((us.map User.id).dedup.filter (fun x => decide (x ∉ [m]))).length ≤
      (us.map User.id).dedup.length := (List.filter_sublist _).length_le
  have h2 : (us.map User.id).dedup.length ≤ (us.map User.id).length :=
    (List.dedup_sublist _).length_le
  have h3 : (us.map User.id).length = us.length := List.length_map us User.id
  omega

/-- C8: the subordinate search terminates on every input, cyclic manager
references included: the queue empties within one more iteration than the
number of users, and running the loop any longer changes nothing, so
getSubordinateIds is the stable result of the loop. -/
theorem getSubordinateIds_terminates (managerId : String) (allUsers : List User)
    (extra : Nat) :
    (runBfs allUsers (allUsers.length + 1) (initBfs managerId)).pending = [] ∧
    runBfs allUsers (allUsers.length + 1 + extra) (initBfs managerId) =
      runBfs allUsers (allUsers.length + 1) (initBfs managerId) ∧
    getSubordinateIds managerId allUsers =
      (runBfs allUsers (allUsers.length + 1 + extra) (initBfs managerId)).subs := by
  have h1 := @runBfs_pending_nil allUsers (allUsers.length + 1) (initBfs managerId)
    (bfsMeasure_init_le allUsers managerId)
  have h2 := @runBfs_stable allUsers (allUsers.length + 1) (initBfs managerId) h1 extra
  exact ⟨h1, h2, by rw [getSubordinateIds, h2]⟩

/-- Invariant of the subordinate search loop state: queued ids are distinct and
visited, the visited set is the manager plus the collected subordinates, the
collected subordinates are distinct reachable ids other than the manager, and
every direct report of an already processed id is visited. -/
structure BfsInv (us : List User) (m : String) (st : BfsState) : Prop where
  pendNodup : st.pending.Nodup
  pendVis : ∀ x ∈ st.pending, x ∈ st.visited
  visIff : ∀ x, x ∈ st.visited ↔ (x = m ∨ x ∈ st.subs)
  subsNodup : st.subs.Nodup
  mNotSubs : m ∉ st.subs
  subsReach : ∀ x ∈ st.subs, Subordinate us m x
  processedClosed : ∀ u ∈ us, ∀ q, u.managerId = some q → q ∈ st.visited →
    q ∉ st.pending → u.id ∈ st.visited

/-- Invariant holding while the direct reports of the dequeued id h are being
folded in: like the loop invariant, except that the closure condition exempts
h, whose reports are only now being enqueued. -/
structure FoldInv (us : List User) (m h : String) (st : BfsState) : Prop where
  pendNodup : st.pending.Nodup
  pendVis : ∀ x ∈ st.pending, x ∈ st.visited
  visIff : ∀ x, x ∈ st.visited ↔ (x = m ∨ x ∈ st.subs)
  subsNodup : st.subs.Nodup
  mNotSubs : m ∉ st.subs
  subsReach : ∀ x ∈ st.subs, Subordinate us m x
  closedExceptH : ∀ u ∈ us, ∀ q, u.managerId = some q → q ∈ st.visited →
    q ∉ st.pending → q ≠ h → u.id ∈ st.visited
  hVis : h ∈ st.visited
  hNotPend : h ∉ st.pending
  hReach : h = m ∨ Subordinate us m h

lemma FoldInv.enqueue {us : List User} {m h : String} {st : BfsState} {u : User}
    (inv : FoldInv us m h st) (hu : u ∈ us) (hm : u.managerId = some h) :
    FoldInv us m h (enqueueChild st u) := by
  unfold enqueueChild
  by_cases hx : u.id ∈ st.visited
  · rw [if_pos hx]
    exact inv
  · rw [if_neg hx]
    have hmVis : m ∈ st.visited := (inv.visIff m).mpr (Or.inl rfl)
    have hidm : u.id ≠ m := fun he => hx (he ▸ hmVis)
    have hsubsVisited : ∀ x ∈ st.subs, x ∈ st.visited :=
      fun x hxs => (inv.visIff x).mpr (Or.inr hxs)
    have hidSubs : u.id ∉ st.subs := fun hxs => hx (hsubsVisited _ hxs)
    have hreach : Subordinate us m u.id := by
      rcases inv.hReach with rfl | hr
      · exact Subordinate.base hu hm
      · exact Subordinate.step hr hu hm
    refine ⟨?_, ?_, ?_, ?_, ?_, ?_, ?_, ?_, ?_, ?_⟩
    · rw [List.nodup_append]
      refine ⟨inv.pendNodup, List.nodup_singleton _, ?_⟩
      intro a ha hb
      rw [List.mem_singleton] at hb
      subst hb
      exact hx (inv.pendVis _ ha)
    · intro x hxp
      rcases List.mem_append.mp hxp with h1 | h1
      · exact List.mem_cons_of_mem _ (inv.pendVis x h1)
      · rw [List.mem_singleton] at h1
        subst h1
        exact List.mem_cons_self _ _
    · intro x
      rw [List.mem_cons, inv.visIff x, List.mem_append, List.mem_singleton]
      tauto
    · rw [List.nodup_append]
      refine ⟨inv.subsNodup, List.nodup_singleton _, ?_⟩
      intro a ha hb
      rw [List.mem_singleton] at hb
      subst hb
      exact hidSubs ha
    · intro hms
      rcases List.mem_append.mp hms with h1 | h1
      · exact inv.mNotSubs h1
      · rw [List.mem_singleton] at h1
        exact hidm h1.symm
    · intro x hxs
      rcases List.mem_append.mp hxs with h1 | h1
      · exact inv.subsReach x h1
      · rw [List.mem_singleton] at h1
        subst h1
        exact hreach
    · intro u2 hu2 q hq hqvis hqpend hqh
      rcases List.mem_cons.mp hqvis with rfl | hqvis2
      · exact absurd (List.mem_append.mpr (Or.inr (List.mem_singleton_self _))) hqpend
      · have hq2 : q ∉ st.pending := fun hc => hqpend (List.mem_append.mpr (Or.inl hc))
        exact List.mem_cons_of_mem _ (inv.closedExceptH u2 hu2 q hq hqvis2 hq2 hqh)
    · exact List.mem_cons_of_mem _ inv.hVis
    · intro hc
      rcases List.mem_append.mp hc with h1 | h1
      · exact inv.hNotPend h1
      · rw [List.mem_singleton] at h1
        exact hx (h1 ▸ inv.hVis)
    · exact inv.hReach

lemma FoldInv.foldl_pres {us : List User} {m h : String} :
    ∀ (l : List User) {st : BfsState}, FoldInv us m h st →
      (∀ u ∈ l, u ∈ us ∧ u.managerId = some h) →
      FoldInv us m h (l.foldl enqueueChild st) := by
  intro l
  induction l with
  | nil => intro st inv _; exact inv
  | cons a rest ih =>
    intro st inv hall
    simp only [List.foldl_cons]
    exact ih (inv.enqueue (hall a (List.mem_cons_self a rest)).1
        (hall a (List.mem_cons_self a rest)).2)
      (fun u hu => hall u (List.mem_cons_of_mem a hu))

lemma visited_subset_foldl :
    ∀ (l : List User) {st : BfsState} {x : String}, x ∈ st.visited →
      x ∈ (l.foldl enqueueChild st).visited := by
  intro l
  induction l with
  | nil => intro st x hx; exact hx
  | cons a rest ih =>
    intro st x hx
    simp only [List.foldl_cons]
    apply ih
    unfold enqueueChild
    by_cases ha : a.id ∈ st.visited
    · rw [if_pos ha]
      exact hx
    · rw [if_neg ha]
      exact List.mem_cons_of_mem _ hx

lemma children_visited_foldl :
    ∀ (l : List User) {st : BfsState}, ∀ u ∈ l, u.id ∈ (l.foldl enqueueChild st).visited := by
  intro l
  induction l with
  | nil => intro st u hu; cases hu
  | cons a rest ih =>
    intro st u hu
    simp only [List.foldl_cons]
    rcases List.mem_cons.mp hu with rfl | h2
    · apply visited_subset_foldl rest
      unfold enqueueChild
      by_cases hx : u.id ∈ st.visited
      · rw [if_pos hx]
        exact hx
      · rw [if_neg hx]
        exact List.mem_cons_self _ _
    · exact ih u h2

lemma BfsInv.step {us : List User} {m : String} {s : BfsState} (inv : BfsInv us m s) :
    BfsInv us m (stepBfs us s) := by
  obtain ⟨pending, visited, subs⟩ := s
  cases pending with
  | nil => exact inv
  | cons h rest =>
    have hhvis : h ∈ visited := inv.pendVis h (List.mem_cons_self _ _)
    have hinv : FoldInv us m h ⟨rest, visited, subs⟩ := by
      refine ⟨(List.nodup_cons.mp inv.pendNodup).2,
        fun x hx => inv.pendVis x (List.mem_cons_of_mem h hx),
        inv.visIff, inv.subsNodup, inv.mNotSubs, inv.subsReach, ?_, hhvis,
        (List.nodup_cons.mp inv.pendNodup).1, ?_⟩
      · intro u2 hu2 q hq hqvis hqpend hqh
        refine inv.processedClosed u2 hu2 q hq hqvis ?_
        intro hc
        rcases List.mem_cons.mp hc with h1 | h1
        · exact hqh h1
        · exact hqpend h1
      · rcases (inv.visIff h).mp hhvis with h1 | h1
        · exact Or.inl h1
        · exact Or.inr (inv.subsReach h h1)
    have hfold := FoldInv.foldl_pres (us.filter (fun u => decide (u.managerId = some h)))
      hinv (fun u hu => ⟨(List.mem_filter.mp hu).1,
        of_decide_eq_true (List.mem_filter.mp hu).2⟩)
    show BfsInv us m
      ((us.filter (fun u => decide (u.managerId = some h))).foldl enqueueChild
        ⟨rest, visited, subs⟩)
    refine ⟨hfold.pendNodup, hfold.pendVis, hfold.visIff, hfold.subsNodup,
      hfold.mNotSubs, hfold.subsReach, ?_⟩
    intro u2 hu2 q hq hqvis hqpend
    by_cases hqh : q = h
    · subst hqh
      have hmem : u2 ∈ us.filter (fun u => decide (u.managerId = some q)) :=
        List.mem_filter.mpr ⟨hu2, by simp [hq]⟩
      exact children_visited_foldl _ u2 hmem
    · exact hfold.closedExceptH u2 hu2 q hq hqvis hqpend hqh

lemma BfsInv.run {us : List User} {m : String} :
    ∀ (n : Nat) {s : BfsState}, BfsInv us m s → BfsInv us m (runBfs us n s) := by
  intro n
  induction n with
  | zero => intro s inv; exact inv
  | succ n ih =>
    intro s inv
    simp only [runBfs]
    by_cases hp : s.pending = []
    · rw [if_pos hp]
      exact inv
    · rw [if_neg hp]
      exact ih inv.step

lemma bfsInv_init (us : List User) (m : String) : BfsInv us m (initBfs m) := by
  refine ⟨List.nodup_singleton m, ?_, ?_, List.nodup_nil, List.not_mem_nil m, ?_, ?_⟩
  · intro x hx
    exact hx
  · intro x
    simp [initBfs]
  · intro x hx
    cases hx
  · intro u hu q hq hqvis hqpend
    exact absurd hqvis hqpend

lemma reach_visited_of_closed {us : List User} {m : String} {st : BfsState}
    (hclosed : ∀ u ∈ us, ∀ q, u.managerId = some q → q ∈ st.visited → u.id ∈ st.visited)
    (hm : m ∈ st.visited) : ∀ x, Subordinate us m x → x ∈ st.visited := by
  intro x hx
  induction hx with
  | base hu hmq => exact hclosed _ hu _ hmq hm
  | step hsub hu hmq ih => exact hclosed _ hu _ hmq ih

lemma no_subordinate_of_no_child {us : List User} {m : String}
    (hno : ∀ u ∈ us, u.managerId ≠ some m) : ∀ x, ¬Subordinate us m x := by
  intro x hx
  induction hx with
  | base hu hmq => exact hno _ hu hmq
  | step hsub hu hmq ih => exact ih

/-- C7: getSubordinateIds returns exactly the ids transitively reachable from
the manager id along manager references, each at most once, the manager id
itself excluded; a manager id no user reports to, as an empty or unknown id
under well-formed data, yields the empty list rather than an error. -/
theorem getSubordinateIds_spec (managerId : String) (allUsers : List User) :
    (∀ x, x ∈ getSubordinateIds managerId allUsers ↔
      (Subordinate allUsers managerId x ∧ x ≠ managerId)) ∧
    (getSubordinateIds managerId allUsers).Nodup ∧
    ((∀ u ∈ allUsers, u.managerId ≠ some managerId) →
      getSubordinateIds managerId allUsers = []) := by
  have hinv : BfsInv allUsers managerId
      (runBfs allUsers (allUsers.length + 1) (initBfs managerId)) :=
    BfsInv.run _ (bfsInv_init allUsers managerId)
  have hpend : (runBfs allUsers (allUsers.length + 1) (initBfs managerId)).pending = [] :=
    runBfs_pending_nil _ _ (bfsMeasure_init_le allUsers managerId)
  have hmemIff : ∀ x, x ∈ getSubordinateIds managerId allUsers ↔
      (Subordinate allUsers managerId x ∧ x ≠ managerId) := by
    intro x
    constructor
    · intro hx
      exact ⟨hinv.subsReach x hx, fun he => hinv.mNotSubs (he ▸ hx)⟩
    · rintro ⟨hr, hne⟩
      have hclosedFull : ∀ u ∈ allUsers, ∀ q, u.managerId = some q →
          q ∈ (runBfs allUsers (allUsers.length + 1) (initBfs managerId)).visited →
          u.id ∈ (runBfs allUsers (allUsers.length + 1) (initBfs managerId)).visited := by
        intro u hu q hq hqvis
        refine hinv.processedClosed u hu q hq hqvis ?_
        rw [hpend]
        exact List.not_mem_nil q
      have hmVis : managerId ∈
          (runBfs allUsers (allUsers.length + 1) (initBfs managerId)).visited :=
        (hinv.visIff managerId).mpr (Or.inl rfl)
      have hxvis := reach_visited_of_closed hclosedFull hmVis x hr
      rcases (hinv.visIff x).mp hxvis with h1 | h1
      · exact absurd h1 hne
      · exact h1
  refine ⟨hmemIff, hinv.subsNodup, ?_⟩
  intro hno
  rw [List.eq_nil_iff_forall_not_mem]
  intro x hx
  exact no_subordinate_of_no_child hno x ((hmemIff x).mp hx).1

/-! Concrete inputs used by the witnesses. -/

def wPreUser : User :=
  { id := "user-1"
    name := "Alice"
    email := "pre@example.com"
    role := Role.pre
    team := some Team.onboarding
    managerId := none }

def wSession : SessionState :=
  { user := some wPreUser, team := some Team.onboarding }

def wDraft : TicketDraft :=
  { uid := "UID500"
    errorTypeId := "et-4"
    description := "d"
    comment := none
    rpName := none
    subject := none
    attachment := none }

def wMessages : List AutomatedMessage :=
  [{ id := "msg-3", errorTypeId := "et-4", message := "auto" }]

def wTicket : Ticket :=
  { id := "ticket-5"
    uid := "UID500"
    preId := "user-1"
    errorTypeId := "et-4"
    description := "d"
    comment := none
    status := TicketStatus.closed
    createdAt := 5
    updatedAt := 5
    rpName := none
    team := Team.onboarding
    subject := none
    attachment := none }

def wStore2 : StoreState :=
  { tickets := [wTicket]
    notifications :=
      [{ id := "notif-5"
         ticketId := "ticket-5"
         preId := "user-1"
         uid := "UID500"
         message := "Ticket #5 for UID UID500: auto"
         timestamp := 5
         isRead := false }]
    adminNotifications :=
      [{ id := "admin-notif-5"
         ticketId := "ticket-5"
         message := "New ticket from UID UID500 was created."
         timestamp := 5
         isRead := false }]
    logs :=
      [{ id := "log-5"
         ticketId := "ticket-5"
         userId := "user-1"
         action := "CREATE"
         timestamp := 5
         details := "Ticket created for UID UID500 with status Closed." }] }

def wTicketIP : Ticket :=
  { id := "ticket-3"
    uid := "UID500"
    preId := "user-1"
    errorTypeId := "et-4"
    description := "d"
    comment := none
    status := TicketStatus.inProgress
    createdAt := 3
    updatedAt := 3
    rpName := none
    team := Team.onboarding
    subject := none
    attachment := none }

def wStore3 : StoreState :=
  { tickets := [wTicketIP]
    notifications := []
    adminNotifications :=
      [{ id := "admin-notif-3"
         ticketId := "ticket-3"
         message := "New ticket from UID UID500 was created."
         timestamp := 3
         isRead := false }]
    logs :=
      [{ id := "log-3"
         ticketId := "ticket-3"
         userId := "user-1"
         action := "CREATE"
         timestamp := 3
         details := "Ticket created for UID UID500 with status In Progress." }] }

def wPatchResolve : TicketPatch :=
  { id := "ticket-0", status := some TicketStatus.completed, comment := some "fixed" }

def wPatchStatus : TicketPatch :=
  { id := "ticket-0", status := some TicketStatus.completed }

def wSysN : SystemNotification :=
  { id := "notif-1"
    ticketId := "ticket-1"
    preId := "user-1"
    uid := "U1"
    message := "m"
    timestamp := 0
    isRead := false }

def wAdmN : AdminNotification :=
  { id := "notif-1"
    ticketId := "ticket-1"
    message := "m"
    timestamp := 0
    isRead := false }

def wUserM : User :=
  { id := "M", name := "m", email := "m@x", role := Role.asm,
    team := some Team.onboarding, managerId := none }

def wUserA : User :=
  { id := "A", name := "a", email := "a@x", role := Role.bdm,
    team := some Team.onboarding, managerId := some "M" }

def wUserB : User :=
  { id := "B", name := "b", email := "b@x", role := Role.bdm,
    team := some Team.onboarding, managerId := some "M" }

def wUserC : User :=
  { id := "C", name := "c", email := "c@x", role := Role.pre,
    team := some Team.onboarding, managerId := some "A" }

def wUsers : List User := [wUserM, wUserA, wUserB, wUserC]

deriving instance DecidableEq for Except

/-! Witnesses. -/

/-- Witness for C1: with an AutomatedMessage matching the draft error type and
no prior ticket for the pair, the created ticket is Closed. -/
theorem addTicket_initial_status_witness :
    (∃ m ∈ wMessages, m.errorTypeId = wDraft.errorTypeId) ∧
    (∀ tk ∈ cEmptyState.tickets,
      ¬(tk.uid = wDraft.uid ∧ tk.errorTypeId = wDraft.errorTypeId)) ∧
    wTicket.status = TicketStatus.closed :=
  ⟨by decide, by decide,
    (addTicket_initial_status wSession wMessages cEmptyState wDraft 5 wTicket wStore2
      (by decide)).2.1 (by decide) (by decide)⟩

/-- Witness for C2: with no matching AutomatedMessage the created ticket is
InProgress and no SystemNotification is produced. -/
theorem addTicket_create_side_effects_witness :
    wTicketIP.status = TicketStatus.inProgress ∧
    wStore3.notifications = cEmptyState.notifications :=
  ⟨rfl,
    (addTicket_create_side_effects wSession [] cEmptyState wDraft 3 wTicketIP wStore3
      (by decide)).2.2.1 rfl⟩

/-- Witness for C3: completing an InProgress ticket with a comment emits one
SystemNotification embedding the comment and no AdminNotification. -/
theorem updateTicket_notification_rules_witness :
    cSession.user = some cAdminUser ∧ cAdminUser.id ≠ "" ∧
    cStateTs.tickets.find? (fun tk => decide (tk.id = wPatchResolve.id)) =
      some cTicketZero ∧
    ((updateTicket cSession cStateTs wPatchResolve 11).adminNotifications =
      cStateTs.adminNotifications ∧
     ∃ sn, (updateTicket cSession cStateTs wPatchResolve 11).notifications =
        sn :: cStateTs.notifications ∧
      sn.message = "Your ticket #" ++ ticketNum (applyPatch cTicketZero wPatchResolve 11).id ++
        " for UID " ++ (applyPatch cTicketZero wPatchResolve 11).uid ++
        " has been resolved. DataCR Comment: \"" ++
        jsOrElse (applyPatch cTicketZero wPatchResolve 11).comment "No comment provided." ++
        "\"") :=
  ⟨rfl, by decide, by decide,
    (updateTicket_notification_rules cSession cStateTs wPatchResolve 11 cAdminUser
      cTicketZero rfl (by decide) (by decide)).2.1 (by decide) (by decide)⟩

/-- Witness for C4: updating an unknown ticket id with a resolved user changes
no ticket or notification but appends one UPDATE audit entry. -/
theorem updateTicket_tolerant_amended_witness :
    cSession.user = some cAdminUser ∧ cAdminUser.id ≠ "" ∧
    cEmptyState.tickets.find?
      (fun tk => decide (tk.id = ("ticket-404" : String))) = none ∧
    ((updateTicket cSession cEmptyState { id := "ticket-404" } 7).tickets =
      cEmptyState.tickets ∧
     (updateTicket cSession cEmptyState { id := "ticket-404" } 7).notifications =
      cEmptyState.notifications ∧
     (updateTicket cSession cEmptyState { id := "ticket-404" } 7).adminNotifications =
      cEmptyState.adminNotifications ∧
     ∃ lg, (updateTicket cSession cEmptyState { id := "ticket-404" } 7).logs =
        lg :: cEmptyState.logs ∧ lg.action = "UPDATE") :=
  ⟨rfl, by decide, by decide,
    (updateTicket_tolerant_amended cSession cEmptyState { id := "ticket-404" } 7).2.2
      cAdminUser rfl (by decide) (by decide)⟩

/-- Witness for C5: with a resolved PRE user and a selected session team,
Create succeeds and returns the populated ticket. -/
theorem addTicket_error_kinds_witness :
    (∀ u, wSession.user = some u → u.id ≠ "") ∧
    ∃ s2, addTicket wSession wMessages cEmptyState wDraft 5 = Except.ok (wTicket, s2) := by
  have hid : ∀ u, wSession.user = some u → u.id ≠ "" := by
    intro u h
    injection h with h2
    subst h2
    decide
  refine ⟨hid, ?_⟩
  have := (addTicket_error_kinds wSession wMessages cEmptyState wDraft 5 hid).2.2
    wPreUser Team.onboarding rfl (by decide)
  exact this

/-- Witness for C7: in the example forest no user reports to C, and the
descendant set of C is empty. -/
theorem getSubordinateIds_spec_witness :
    (∀ u ∈ wUsers, u.managerId ≠ some "C") ∧ getSubordinateIds "C" wUsers = [] :=
  ⟨by decide, (getSubordinateIds_spec "C" wUsers).2.2 (by decide)⟩

/-- Witness for C9: marking the only notification of each kind read twice
leaves exactly one read record of each kind. -/
theorem markRead_idempotent_tolerant_witness :
    ((∀ n ∈ [wSysN], n.isRead = false) ∧ (∃ n ∈ [wSysN], n.id = "notif-1") ∧
      (∀ n ∈ [wAdmN], n.isRead = false) ∧ (∃ n ∈ [wAdmN], n.id = "notif-1")) ∧
    (markSystemNotificationAsRead (markSystemNotificationAsRead [wSysN] "notif-1")
      "notif-1").countP (fun n => n.isRead) = 1 ∧
    (markAdminNotificationAsRead (markAdminNotificationAsRead [wAdmN] "notif-1")
      "notif-1").countP (fun n => n.isRead) = 1 :=
  ⟨⟨by decide, by decide, by decide, by decide⟩,
    (markRead_idempotent_tolerant [wSysN] [wAdmN] "notif-1").2.2.2.2.1
      (by decide) (by decide),
    (markRead_idempotent_tolerant [wSysN] [wAdmN] "notif-1").2.2.2.2.2
      (by decide) (by decide)⟩

/-- Witness for C10: a status-only update at a later instant keeps updatedAt at
or above createdAt for the stored ticket. -/
theorem timestamps_invariant_amended_witness :
    wPatchStatus.createdAt = none ∧
    (∀ tk ∈ cStateTs.tickets, tk.createdAt ≤ tk.updatedAt ∧ tk.createdAt ≤ 2) ∧
    (∀ tk ∈ (updateTicket cSession cStateTs wPatchStatus 2).tickets,
      tk.createdAt ≤ tk.updatedAt) :=
  ⟨rfl, by decide,
    (timestamps_invariant_amended cSession [] cStateTs wDraft wPatchStatus 2).2
      rfl (by decide)⟩

end Sai
